import Mathlib

/-!
Shallow embedding of `src/background/libravatar.js` (elypia/Auto-Avatars).

The repository ships a single source file, `libravatar.js`, which exports a
static content-type table `SUPPORTED_CONTENT_TYPES` and one async function
`getAvatar(email, size)`.  Its collaborators (`queryAvatarService` from
`dns.js`, `buildSecureUrl`, `doSignaturesMatch`, `sha256sum` from `utils.js`,
`DEFAULT_HOST` and `DEFAULT_AVATAR` from `constants.js`, the WebExtension
storage and the browser `fetch`) are not part of the visible source; they are
modelled as an explicit environment record, faithful to their interface
contracts in the spec.

Effects are made explicit: `getAvatar` returns both its result (an optional
`File`) and a trace of observable events (outbound fetch requests and the
reading of a response body), so that claims counting network attempts or
asserting that a body is never read are statable.
-/

namespace Libravatar

/-- A DNS service-discovery answer, the `data` payload of `queryAvatarService`:
`{ target, port }` as in the spec (§4.2, §6). -/
structure DnsAnswer where
  target : String
  port : Nat
deriving Repr, DecidableEq

/-- An HTTP response as observed by `getAvatar`: the `ok` flag (HTTP-success
status), the `content-type` header (absent or a string), and the body bytes
(the blob). -/
structure Response where
  ok : Bool
  contentType : Option String
  body : List Nat
deriving Repr, DecidableEq

/-- The result `File` object: body bytes, derived file name, and content type. -/
structure File where
  bytes : List Nat
  name : String
  type : String
deriving Repr, DecidableEq

/-- Observable events of one `getAvatar` call: an outbound fetch request to a
URL, or the reading of a response body (`resp.blob()`). -/
inductive Event where
  | fetchReq (url : String)
  | blobRead
deriving Repr, DecidableEq

/-- The environment of a `getAvatar` call: the three preference-store keys read
via `messenger.storage.sync.get`, the constants from `constants.js`, the pure
collaborators from `utils.js` and `dns.js`, and the network.

Modelled from the spec: `queryAvatarService` (source `dns.js` is not in the
repository snapshot) is a single-attempt lookup returning `{target, port}` or
absent; per §6 its failure must not propagate as an exception, so a lookup
error and a negative answer are both `none`.  `buildSecureUrl` and `sha256sum`
(source `utils.js` missing) are deterministic pure functions per §6.
`DEFAULT_HOST` and `DEFAULT_AVATAR` (source `constants.js` missing) are the
static default base URL and the system default placeholder directive.
`fetch url = none` models a thrown transport error (network failure, timeout,
TLS or CORS denial); `some r` models a completed HTTP response. -/
structure Env where
  dohServer : Option String
  defaultAvatar : Option String
  preferredInstance : Option String
  DEFAULT_HOST : String
  DEFAULT_AVATAR : String
  queryAvatarService : Option String → String → Option DnsAnswer
  buildSecureUrl : String → Nat → String
  sha256sum : String → String
  fetch : String → Option Response

/-- JavaScript truthiness of an optional string preference value:
`undefined` and the empty string are falsy. -/
def truthy : Option String → Bool
  | none => false
  | some s => !s.isEmpty

/-- Metadata of one entry of `SUPPORTED_CONTENT_TYPES`: the normalized content
type, the leading file signature, and the optional trailing signature. -/
structure ContentTypeMeta where
  contentType : String
  signature : List Nat
  tail : Option (List Nat)
deriving Repr, DecidableEq

/-- The static table `SUPPORTED_CONTENT_TYPES` from `libravatar.js`, keyed by
the declared content-type string. -/
def SUPPORTED_CONTENT_TYPES : List (String × ContentTypeMeta) :=
  [ ("image/jpg",
      { contentType := "image/jpeg"
        signature := [255, 216]
        tail := some [255, 217] }),
    ("image/png",
      { contentType := "image/png"
        signature := [137, 80, 78, 71, 13, 10, 26, 10]
        tail := none }) ]

/-- `SUPPORTED_CONTENT_TYPES.get(ct)`: exact string lookup in the map. -/
def lookupContentType (ct : String) : Option ContentTypeMeta :=
  (SUPPORTED_CONTENT_TYPES.find? (fun p => p.1 == ct)).map (fun p => p.2)

/-- JavaScript `String.prototype.split` with a single-character separator,
transcribed on the character list: splits at every occurrence of `c`;
the empty input yields `[""]`, and separators at the ends yield empty
segments, exactly as in JavaScript. -/
def splitOnChar (c : Char) : List Char → List (List Char)
  | [] => [[]]
  | x :: xs =>
    if x = c then [] :: splitOnChar c xs
    else
      match splitOnChar c xs with
      | [] => [[x]]
      | y :: ys => (x :: y) :: ys

/-- JavaScript `String.prototype.trim` on the character list: removes
whitespace from both ends. -/
def trimChars (l : List Char) : List Char :=
  ((l.dropWhile Char.isWhitespace).reverse.dropWhile Char.isWhitespace).reverse

/-- Line `const normalized = email.trim().toLowerCase();` — trim surrounding
whitespace, then lowercase every character. -/
def normalizeEmail (email : String) : String :=
  String.mk ((trimChars email.data).map Char.toLower)

/-- Line `const domain = normalized.split('@')[1];` — the element at index 1
of the split, `undefined` (here `none`) when the address has no `@`. -/
def domainOf (normalized : String) : Option String :=
  ((splitOnChar '@' normalized.data)[1]?).map (fun l => String.mk l)

/-- The `dnsData` variable: `queryAvatarService(domain, dohServer).data` when
the `dohServer` preference is truthy, otherwise left `undefined`. -/
def dnsDataOf (env : Env) (domain : Option String) : Option DnsAnswer :=
  match env.dohServer with
  | some server => if server.isEmpty then none else env.queryAvatarService domain server
  | none => none

/-- Line `const contactsInstance = (dnsData) ? buildSecureUrl(dnsData.target,
dnsData.port) : DEFAULT_HOST;`. -/
def resolveInstance (env : Env) (domain : Option String) : String :=
  match dnsDataOf env domain with
  | some d => env.buildSecureUrl d.target d.port
  | none => env.DEFAULT_HOST

/-- The instance attempted first by `getAvatar` for a given raw email. -/
def instanceOf (env : Env) (email : String) : String :=
  resolveInstance env (domainOf (normalizeEmail email))

/-- The `route` string: `/avatar/${emailHash}?s=${size}` plus the three-valued
default-placeholder directive — a truthy `defaultAvatar` preference verbatim,
nothing when it is the explicit empty string, `DEFAULT_AVATAR` when unset. -/
def buildRoute (env : Env) (emailHash : String) (size : Nat) : String :=
  let route := "/avatar/" ++ emailHash ++ "?s=" ++ toString size
  match env.defaultAvatar with
  | some s => if s.isEmpty then route else route ++ "&d=" ++ s
  | none => route ++ "&d=" ++ env.DEFAULT_AVATAR

/-- The full route computed by `getAvatar` for a raw email and size. -/
def routeOf (env : Env) (email : String) (size : Nat) : String :=
  buildRoute env (env.sha256sum (normalizeEmail email)) size

/-- Line `const preferredInstance = instanceOption?.preferredInstance ||
DEFAULT_HOST;`. -/
def fallbackInstance (env : Env) : String :=
  match env.preferredInstance with
  | some s => if s.isEmpty then env.DEFAULT_HOST else s
  | none => env.DEFAULT_HOST

/-- The test `if (!resp || !resp.ok)`: `resp` is a success only if the fetch
did not throw and the response has an HTTP-success status. -/
def respOk : Option Response → Bool
  | none => false
  | some r => r.ok

/-- Modelled from the spec: `doSignaturesMatch(blob, signature, tail)` from the
missing `utils.js`, per §4.5 and §6 — the first bytes of the body must equal
`signature` and, when `tail` is present, the final bytes must equal it. -/
def doSignaturesMatch (bytes signature : List Nat) (tail : Option (List Nat)) : Bool :=
  (bytes.take signature.length == signature) &&
    (match tail with
     | none => true
     | some t => bytes.drop (bytes.length - t.length) == t)

/-- The validation stage of `getAvatar` on a response that passed the `ok`
gates: content-type header check, table lookup, body read (traced as
`Event.blobRead`), signature match, and `File` construction with the
normalized content type and `${emailHash}.${extension}` name. -/
def validateResponse (resp : Response) (emailHash : String) : Option File × List Event :=
  match resp.contentType with
  | none => (none, [])
  | some ct =>
    match lookupContentType ct with
    | none => (none, [])
    | some meta =>
      let blob := resp.body
      (if doSignaturesMatch blob meta.signature meta.tail then
         some { bytes := blob
                name := emailHash ++ "." ++
                  String.mk ((splitOnChar '/' meta.contentType.data).getD 1 [])
                type := meta.contentType }
       else none,
       [Event.blobRead])

/-- `getAvatar(email, size)`: normalize the address, resolve the instance,
build the route, fetch with a one-shot fallback to `preferredInstance`
(short-circuiting when it equals the instance already tried), then validate
the response.  The second component is the trace of observable events. -/
def getAvatar (env : Env) (email : String) (size : Nat) : Option File × List Event :=
  let contactsInstance := instanceOf env email
  let emailHash := env.sha256sum (normalizeEmail email)
  let route := buildRoute env emailHash size
  let url1 := contactsInstance ++ route
  let resp1 := env.fetch url1
  if respOk resp1 then
    match resp1 with
    | some r =>
      let v := validateResponse r emailHash
      (v.1, Event.fetchReq url1 :: v.2)
    | none => (none, [Event.fetchReq url1])
  else
    let preferredInstance := fallbackInstance env
    if preferredInstance = contactsInstance then
      (none, [Event.fetchReq url1])
    else
      let url2 := preferredInstance ++ route
      match env.fetch url2 with
      | none => (none, [Event.fetchReq url1, Event.fetchReq url2])
      | some r =>
        if r.ok then
          let v := validateResponse r emailHash
          (v.1, Event.fetchReq url1 :: Event.fetchReq url2 :: v.2)
        else (none, [Event.fetchReq url1, Event.fetchReq url2])

/-- Number of outbound fetch requests recorded in a trace. -/
def countFetches (t : List Event) : Nat :=
  (t.filter (fun e => match e with | Event.fetchReq _ => true | Event.blobRead => false)).length

/-- The URL of the first fetch attempt. -/
def attemptUrl1 (env : Env) (email : String) (size : Nat) : String :=
  instanceOf env email ++ routeOf env email size

/-- The URL of the fallback fetch attempt. -/
def attemptUrl2 (env : Env) (email : String) (size : Nat) : String :=
  fallbackInstance env ++ routeOf env email size

/-- Control-flow case: attempt 1 returned a success response, so the result is
the validation of that response and no second fetch happens. -/
theorem getAvatar_attempt1_ok (env : Env) (email : String) (size : Nat) (r : Response)
    (h1 : env.fetch (attemptUrl1 env email size) = some r) (hok : r.ok = true) :
    getAvatar env email size =
      ((validateResponse r (env.sha256sum (normalizeEmail email))).1,
        Event.fetchReq (attemptUrl1 env email size) ::
          (validateResponse r (env.sha256sum (normalizeEmail email))).2) := by
  simp only [attemptUrl1, routeOf] at h1
  simp only [getAvatar, attemptUrl1, routeOf, h1, respOk, hok, if_true]

/-- Control-flow case: attempt 1 did not yield a success and the fallback
instance equals the instance already attempted, so the call short-circuits:
one fetch, absent result. -/
theorem getAvatar_shortCircuit (env : Env) (email : String) (size : Nat)
    (hfail : respOk (env.fetch (attemptUrl1 env email size)) = false)
    (heq : fallbackInstance env = instanceOf env email) :
    getAvatar env email size = (none, [Event.fetchReq (attemptUrl1 env email size)]) := by
  simp only [attemptUrl1, routeOf] at hfail
  simp only [getAvatar, attemptUrl1, routeOf, hfail, Bool.false_eq_true, if_false, heq,
    if_true]

/-- Control-flow case: attempt 1 did not yield a success, the fallback differs,
and the fallback fetch throws: two fetches, absent result. -/
theorem getAvatar_fallback_throws (env : Env) (email : String) (size : Nat)
    (hfail : respOk (env.fetch (attemptUrl1 env email size)) = false)
    (hne : fallbackInstance env ≠ instanceOf env email)
    (h2 : env.fetch (attemptUrl2 env email size) = none) :
    getAvatar env email size =
      (none, [Event.fetchReq (attemptUrl1 env email size),
              Event.fetchReq (attemptUrl2 env email size)]) := by
  simp only [attemptUrl1, attemptUrl2, routeOf] at hfail h2
  simp only [getAvatar, attemptUrl1, attemptUrl2, routeOf, hfail, Bool.false_eq_true,
    if_false, hne, h2, if_neg]

/-- Control-flow case: attempt 1 did not yield a success, the fallback differs,
and the fallback fetch completes with a non-success status: two fetches,
absent result. -/
theorem getAvatar_fallback_notOk (env : Env) (email : String) (size : Nat) (r : Response)
    (hfail : respOk (env.fetch (attemptUrl1 env email size)) = false)
    (hne : fallbackInstance env ≠ instanceOf env email)
    (h2 : env.fetch (attemptUrl2 env email size) = some r) (hok : r.ok = false) :
    getAvatar env email size =
      (none, [Event.fetchReq (attemptUrl1 env email size),
              Event.fetchReq (attemptUrl2 env email size)]) := by
  simp only [attemptUrl1, attemptUrl2, routeOf] at hfail h2
  simp only [getAvatar, attemptUrl1, attemptUrl2, routeOf, hfail, Bool.false_eq_true,
    if_false, hne, h2, hok, if_neg]

/-- Control-flow case: attempt 1 did not yield a success, the fallback differs,
and the fallback fetch completes with a success status: two fetches, result is
the validation of the fallback response. -/
theorem getAvatar_fallback_ok (env : Env) (email : String) (size : Nat) (r : Response)
    (hfail : respOk (env.fetch (attemptUrl1 env email size)) = false)
    (hne : fallbackInstance env ≠ instanceOf env email)
    (h2 : env.fetch (attemptUrl2 env email size) = some r) (hok : r.ok = true) :
    getAvatar env email size =
      ((validateResponse r (env.sha256sum (normalizeEmail email))).1,
        Event.fetchReq (attemptUrl1 env email size) ::
          Event.fetchReq (attemptUrl2 env email size) ::
            (validateResponse r (env.sha256sum (normalizeEmail email))).2) := by
  simp only [attemptUrl1, attemptUrl2, routeOf] at hfail h2
  simp only [getAvatar, attemptUrl1, attemptUrl2, routeOf, hfail, Bool.false_eq_true,
    if_false, hne, h2, hok, if_neg, if_true]

/-- A throwing fetch (`none`) or a completed response with a non-success
status both fail the `if (!resp || !resp.ok)` test; success means some
response with `ok`. -/
theorem respOk_true_iff (o : Option Response) :
    respOk o = true ↔ ∃ r, o = some r ∧ r.ok = true := by
  cases o <;> simp [respOk]

theorem countFetches_nil : countFetches [] = 0 := rfl

theorem countFetches_cons_fetch (u : String) (t : List Event) :
    countFetches (Event.fetchReq u :: t) = countFetches t + 1 := by
  simp [countFetches, List.filter]

theorem countFetches_cons_blob (t : List Event) :
    countFetches (Event.blobRead :: t) = countFetches t := by
  simp [countFetches, List.filter]

/-- Validation never issues a network request: its event list holds no
fetch event. -/
theorem countFetches_validate (r : Response) (s : String) :
    countFetches (validateResponse r s).2 = 0 := by
  rcases hct : r.contentType with _ | ct
  · simp [validateResponse, hct, countFetches]
  · rcases hl : lookupContentType ct with _ | meta
    · simp [validateResponse, hct, hl, countFetches]
    · simp [validateResponse, hct, hl, countFetches]

/-- A concrete environment used to exercise the theorems on closed inputs:
no discovery, no preferences set, every fetch fails. -/
def envBase : Env :=
  { dohServer := none
    defaultAvatar := none
    preferredInstance := none
    DEFAULT_HOST := "https://seccdn.libravatar.org"
    DEFAULT_AVATAR := "identicon"
    queryAvatarService := fun _ _ => none
    buildSecureUrl := fun t p => "https://" ++ t ++ ":" ++ toString p
    sha256sum := fun s => "h-" ++ s
    fetch := fun _ => none }

/-- C1: every `getAvatar` call makes at most two fetch attempts; when attempt 1
does not yield a success status, then if the fallback instance (the
`preferredInstance` preference, defaulting to the default host) is
string-identical to the instance already attempted the call returns `none`
after exactly one fetch, and otherwise exactly one second fetch is issued,
against the fallback, and its failure is terminal (result `none`), with no
third attempt. -/
theorem getAvatar_fetch_policy (env : Env) (email : String) (size : Nat) :
    countFetches (getAvatar env email size).2 ≤ 2 ∧
    (respOk (env.fetch (attemptUrl1 env email size)) = false →
      (fallbackInstance env = instanceOf env email →
        (getAvatar env email size).1 = none ∧
          countFetches (getAvatar env email size).2 = 1) ∧
      (fallbackInstance env ≠ instanceOf env email →
        countFetches (getAvatar env email size).2 = 2 ∧
          (getAvatar env email size).2[1]? =
            some (Event.fetchReq (attemptUrl2 env email size)) ∧
          (respOk (env.fetch (attemptUrl2 env email size)) = false →
            (getAvatar env email size).1 = none))) := by
  cases hro : respOk (env.fetch (attemptUrl1 env email size)) with
  | true =>
    obtain ⟨r, h1, hok⟩ := (respOk_true_iff _).mp hro
    rw [getAvatar_attempt1_ok env email size r h1 hok]
    refine ⟨?_, ?_⟩
    · simp [countFetches_cons_fetch, countFetches_validate]
    · intro hfalse
      exact absurd hfalse (by decide)
  | false =>
    by_cases heq : fallbackInstance env = instanceOf env email
    · rw [getAvatar_shortCircuit env email size hro heq]
      refine ⟨by simp [countFetches_cons_fetch, countFetches_nil], fun _ => ⟨?_, ?_⟩⟩
      · intro _
        exact ⟨rfl, by simp [countFetches_cons_fetch, countFetches_nil]⟩
      · intro hne
        exact absurd heq hne
    · rcases h2 : env.fetch (attemptUrl2 env email size) with _ | r2
      · rw [getAvatar_fallback_throws env email size hro heq h2]
        refine ⟨by simp [countFetches_cons_fetch, countFetches_nil], fun _ => ⟨?_, ?_⟩⟩
        · intro heq'
          exact absurd heq' heq
        · intro _
          exact ⟨by simp [countFetches_cons_fetch, countFetches_nil], rfl, fun _ => rfl⟩
      · cases hok2 : r2.ok with
        | false =>
          rw [getAvatar_fallback_notOk env email size r2 hro heq h2 hok2]
          refine ⟨by simp [countFetches_cons_fetch, countFetches_nil], fun _ => ⟨?_, ?_⟩⟩
          · intro heq'
            exact absurd heq' heq
          · intro _
            exact ⟨by simp [countFetches_cons_fetch, countFetches_nil], rfl, fun _ => rfl⟩
        | true =>
          rw [getAvatar_fallback_ok env email size r2 hro heq h2 hok2]
          refine ⟨?_, fun _ => ⟨?_, ?_⟩⟩
          · simp [countFetches_cons_fetch, countFetches_validate]
          · intro heq'
            exact absurd heq' heq
          · intro _
            refine ⟨by simp [countFetches_cons_fetch, countFetches_validate], by simp, ?_⟩
            intro hfalse2
            simp [respOk, hok2] at hfalse2

/-- Closed instance of the C1 theorem: with no preferences and a network where
every fetch fails, the fallback equals the attempted default instance, so the
call returns `none` after exactly one fetch. -/
theorem getAvatar_fetch_policy_witness :
    (getAvatar envBase "user@example.org" 64).1 = none ∧
      countFetches (getAvatar envBase "user@example.org" 64).2 = 1 :=
  ((getAvatar_fetch_policy envBase "user@example.org" 64).2 (by decide)).1 (by decide)

/-- Every call starts with a fetch of attempt 1: the trace head is always the
first fetch request. -/
theorem getAvatar_trace_head (env : Env) (email : String) (size : Nat) :
    (getAvatar env email size).2.head? =
      some (Event.fetchReq (attemptUrl1 env email size)) := by
  cases hro : respOk (env.fetch (attemptUrl1 env email size)) with
  | true =>
    obtain ⟨r, h1, hok⟩ := (respOk_true_iff _).mp hro
    rw [getAvatar_attempt1_ok env email size r h1 hok]
    rfl
  | false =>
    by_cases heq : fallbackInstance env = instanceOf env email
    · rw [getAvatar_shortCircuit env email size hro heq]
      rfl
    · rcases h2 : env.fetch (attemptUrl2 env email size) with _ | r2
      · rw [getAvatar_fallback_throws env email size hro heq h2]
        rfl
      · cases hok2 : r2.ok with
        | false =>
          rw [getAvatar_fallback_notOk env email size r2 hro heq h2 hok2]
          rfl
        | true =>
          rw [getAvatar_fallback_ok env email size r2 hro heq h2 hok2]
          rfl

/-- Skeleton shared by the rejection claims: if every response obtained from
either attempt validates to an absent result, the call returns `none`. -/
theorem getAvatar_none_of_validate_none (env : Env) (email : String) (size : Nat)
    (h : ∀ r : Response,
      (env.fetch (attemptUrl1 env email size) = some r ∨
        env.fetch (attemptUrl2 env email size) = some r) →
      r.ok = true →
      (validateResponse r (env.sha256sum (normalizeEmail email))).1 = none) :
    (getAvatar env email size).1 = none := by
  cases hro : respOk (env.fetch (attemptUrl1 env email size)) with
  | true =>
    obtain ⟨r, h1, hok⟩ := (respOk_true_iff _).mp hro
    rw [getAvatar_attempt1_ok env email size r h1 hok]
    exact h r (Or.inl h1) hok
  | false =>
    by_cases heq : fallbackInstance env = instanceOf env email
    · rw [getAvatar_shortCircuit env email size hro heq]
    · rcases h2 : env.fetch (attemptUrl2 env email size) with _ | r2
      · rw [getAvatar_fallback_throws env email size hro heq h2]
      · cases hok2 : r2.ok with
        | false => rw [getAvatar_fallback_notOk env email size r2 hro heq h2 hok2]
        | true =>
          rw [getAvatar_fallback_ok env email size r2 hro heq h2 hok2]
          exact h r2 (Or.inr h2) hok2

/-- The PNG table entry, for reference in proofs. -/
theorem lookup_png :
    lookupContentType "image/png" =
      some { contentType := "image/png"
             signature := [137, 80, 78, 71, 13, 10, 26, 10]
             tail := none } := rfl

/-- The JPEG table entry, for reference in proofs. -/
theorem lookup_jpg :
    lookupContentType "image/jpg" =
      some { contentType := "image/jpeg"
             signature := [255, 216]
             tail := some [255, 217] } := rfl

/-- A response declaring `image/png` whose body does not begin with the PNG
signature fails validation. -/
theorem validate_png_bad (r : Response) (s : String)
    (hct : r.contentType = some "image/png")
    (hsig : r.body.take 8 ≠ [137, 80, 78, 71, 13, 10, 26, 10]) :
    (validateResponse r s).1 = none := by
  have hb : (r.body.take 8 == [137, 80, 78, 71, 13, 10, 26, 10]) = false :=
    beq_eq_false_iff_ne.mpr hsig
  simp [validateResponse, hct, lookup_png, doSignaturesMatch, hb]

/-- A response declaring `image/jpg` whose body starts with `FF D8` and ends
with `FF D9` passes validation, normalized to `image/jpeg` with extension
`jpeg`. -/
theorem validate_jpg_good (r : Response) (s : String)
    (hct : r.contentType = some "image/jpg")
    (hsig : r.body.take 2 = [255, 216])
    (htail : r.body.drop (r.body.length - 2) = [255, 217]) :
    (validateResponse r s).1 =
      some { bytes := r.body, name := s ++ "." ++ "jpeg", type := "image/jpeg" } := by
  simp [validateResponse, hct, lookup_jpg, doSignaturesMatch, hsig, htail]
  rfl

/-- C2: whenever discovery yields no DNS data — a negative answer, an absorbed
lookup error, or no `dohServer` resolver configured — `getAvatar` resolves the
default base URL and still proceeds to its first fetch against it, so no
discovery failure propagates to the caller. -/
theorem resolveInstance_degrades (env : Env) (email : String) (size : Nat)
    (h : dnsDataOf env (domainOf (normalizeEmail email)) = none) :
    instanceOf env email = env.DEFAULT_HOST ∧
      (getAvatar env email size).2.head? =
        some (Event.fetchReq (env.DEFAULT_HOST ++ routeOf env email size)) := by
  have hinst : instanceOf env email = env.DEFAULT_HOST := by
    unfold instanceOf resolveInstance
    rw [h]
  refine ⟨hinst, ?_⟩
  rw [getAvatar_trace_head env email size]
  unfold attemptUrl1
  rw [hinst]

/-- Closed instance of the C2 theorem: with no resolver configured the first
fetch goes to the default host. -/
theorem resolveInstance_degrades_witness :
    instanceOf envBase "user@example.org" = envBase.DEFAULT_HOST ∧
      (getAvatar envBase "user@example.org" 64).2.head? =
        some (Event.fetchReq
          (envBase.DEFAULT_HOST ++ routeOf envBase "user@example.org" 64)) :=
  resolveInstance_degrades envBase "user@example.org" 64 rfl

/-- A success response with `content-type: image/png` and a body that does not
begin with the PNG signature. -/
def respPngBad : Response :=
  { ok := true, contentType := some "image/png", body := [1, 2, 3] }

/-- An environment whose network always yields `respPngBad`. -/
def envPngBad : Env := { envBase with fetch := fun _ => some respPngBad }

/-- C3: when every response obtained from either attempt is a success declaring
`image/png` with a body that does not begin with the 8-byte PNG signature, the
call returns `none`, although `image/png` is in the allow-list; no exception
surfaces (the result is the plain two-valued outcome). -/
theorem getAvatar_png_bad_signature (env : Env) (email : String) (size : Nat)
    (hall : ∀ r : Response,
      (env.fetch (attemptUrl1 env email size) = some r ∨
        env.fetch (attemptUrl2 env email size) = some r) →
      r.ok = true →
      r.contentType = some "image/png" ∧
        r.body.take 8 ≠ [137, 80, 78, 71, 13, 10, 26, 10]) :
    (lookupContentType "image/png").isSome = true ∧
      (getAvatar env email size).1 = none := by
  refine ⟨rfl, getAvatar_none_of_validate_none env email size ?_⟩
  intro r hr hok
  obtain ⟨hct, hsig⟩ := hall r hr hok
  exact validate_png_bad r _ hct hsig

/-- Closed instance of the C3 theorem at `envPngBad`. -/
theorem getAvatar_png_bad_signature_witness :
    (lookupContentType "image/png").isSome = true ∧
      (getAvatar envPngBad "jane@example.org" 32).1 = none :=
  getAvatar_png_bad_signature envPngBad "jane@example.org" 32 (by
    intro r hr _
    have hr' : some respPngBad = some r := hr.elim (fun h => h) (fun h => h)
    cases Option.some.inj hr'
    exact ⟨rfl, by decide⟩)

/-- A success response with `content-type: image/jpg`, body starting `FF D8`
and ending `FF D9`. -/
def respJpgGood : Response :=
  { ok := true, contentType := some "image/jpg", body := [255, 216, 42, 255, 217] }

/-- An environment whose network always yields `respJpgGood`. -/
def envJpgGood : Env := { envBase with fetch := fun _ => some respJpgGood }

/-- C4: a success response declaring `image/jpg` whose body starts with
`FF D8` and ends with `FF D9` is accepted: the result is a file whose type is
the normalized `image/jpeg` and whose name is the address hash followed by the
extension `jpeg`. -/
theorem getAvatar_jpg_accepted (env : Env) (email : String) (size : Nat) (r : Response)
    (hsrc : env.fetch (attemptUrl1 env email size) = some r ∨
      (respOk (env.fetch (attemptUrl1 env email size)) = false ∧
        fallbackInstance env ≠ instanceOf env email ∧
        env.fetch (attemptUrl2 env email size) = some r))
    (hok : r.ok = true)
    (hct : r.contentType = some "image/jpg")
    (hsig : r.body.take 2 = [255, 216])
    (htail : r.body.drop (r.body.length - 2) = [255, 217]) :
    (getAvatar env email size).1 =
      some { bytes := r.body
             name := env.sha256sum (normalizeEmail email) ++ "." ++ "jpeg"
             type := "image/jpeg" } := by
  rcases hsrc with h1 | ⟨hfail, hne, h2⟩
  · rw [getAvatar_attempt1_ok env email size r h1 hok]
    exact validate_jpg_good r _ hct hsig htail
  · rw [getAvatar_fallback_ok env email size r hfail hne h2 hok]
    exact validate_jpg_good r _ hct hsig htail

/-- Closed instance of the C4 theorem at `envJpgGood`. -/
theorem getAvatar_jpg_accepted_witness :
    (getAvatar envJpgGood "jane@example.org" 32).1 =
      some { bytes := respJpgGood.body
             name := envJpgGood.sha256sum (normalizeEmail "jane@example.org") ++ "." ++ "jpeg"
             type := "image/jpeg" } :=
  getAvatar_jpg_accepted envJpgGood "jane@example.org" 32 respJpgGood
    (Or.inl rfl) rfl rfl (by decide) (by decide)

/-- Reassociation of the literal parts of the scenario route. -/
theorem route_literal_assoc (t : String) :
    t ++ "?s=" ++ "80" ++ "&d=" ++ "identicon" = t ++ "?s=80&d=identicon" := by
  apply String.ext
  simp [List.append_assoc]

/-- C5: the default-placeholder preference is three-valued — unset appends the
system default directive, the explicit empty string omits the directive, and
any other explicit value is embedded verbatim; in the concrete scenario
(email Alice@Example.com, size 80, placeholder unset, system default
identicon) the request path is `/avatar/` plus the hash of the lowercased
address plus `?s=80&d=identicon`. -/
theorem defaultAvatar_three_valued (env : Env) (s : String) (size : Nat) :
    (env.defaultAvatar = none →
      buildRoute env s size =
        "/avatar/" ++ s ++ "?s=" ++ toString size ++ "&d=" ++ env.DEFAULT_AVATAR) ∧
    (env.defaultAvatar = some "" →
      buildRoute env s size = "/avatar/" ++ s ++ "?s=" ++ toString size) ∧
    (∀ v, env.defaultAvatar = some v → v ≠ "" →
      buildRoute env s size =
        "/avatar/" ++ s ++ "?s=" ++ toString size ++ "&d=" ++ v) ∧
    (env.defaultAvatar = none → env.DEFAULT_AVATAR = "identicon" →
      routeOf env "Alice@Example.com" 80 =
        "/avatar/" ++ env.sha256sum "alice@example.com" ++ "?s=80&d=identicon") := by
  refine ⟨?_, ?_, ?_, ?_⟩
  · intro h
    simp [buildRoute, h]
  · intro h
    have he : ("" : String).isEmpty = true := rfl
    simp [buildRoute, h, he]
  · intro v h hv
    have hve : v.isEmpty = false := by
      cases hb : v.isEmpty
      · rfl
      · exact absurd ((String.isEmpty_iff v).mp hb) hv
    simp [buildRoute, h, hve]
  · intro h hda
    have hnorm : normalizeEmail "Alice@Example.com" = "alice@example.com" := by decide
    have h80 : toString (80 : Nat) = "80" := rfl
    simp only [routeOf, buildRoute, hnorm, h, hda, h80]
    exact route_literal_assoc ("/avatar/" ++ env.sha256sum "alice@example.com")

/-- Closed instance of the C5 theorem: the scenario route at `envBase`. -/
theorem defaultAvatar_three_valued_witness :
    routeOf envBase "Alice@Example.com" 80 =
      "/avatar/" ++ envBase.sha256sum "alice@example.com" ++ "?s=80&d=identicon" :=
  (defaultAvatar_three_valued envBase "x" 1).2.2.2 rfl rfl

/-- A response whose declared content type misses the table fails validation
before the body is read: no result and no events. -/
theorem validate_reject (r : Response) (s : String)
    (h : ∀ ct, r.contentType = some ct → lookupContentType ct = none) :
    validateResponse r s = (none, []) := by
  rcases hct : r.contentType with _ | ct
  · simp [validateResponse, hct]
  · simp [validateResponse, hct, h ct hct]

/-- C6: when every response obtained from either attempt carries an absent
content-type header or one outside the supported-type table, the call returns
`none` and the response body is never read (no `blobRead` event), hence no
signature validation happens. -/
theorem getAvatar_unsupported_type (env : Env) (email : String) (size : Nat)
    (hall : ∀ r : Response,
      (env.fetch (attemptUrl1 env email size) = some r ∨
        env.fetch (attemptUrl2 env email size) = some r) →
      ∀ ct, r.contentType = some ct → lookupContentType ct = none) :
    (getAvatar env email size).1 = none ∧
      Event.blobRead ∉ (getAvatar env email size).2 := by
  cases hro : respOk (env.fetch (attemptUrl1 env email size)) with
  | true =>
    obtain ⟨r, h1, hok⟩ := (respOk_true_iff _).mp hro
    rw [getAvatar_attempt1_ok env email size r h1 hok,
      validate_reject r _ (hall r (Or.inl h1))]
    exact ⟨rfl, by simp⟩
  | false =>
    by_cases heq : fallbackInstance env = instanceOf env email
    · rw [getAvatar_shortCircuit env email size hro heq]
      exact ⟨rfl, by simp⟩
    · rcases h2 : env.fetch (attemptUrl2 env email size) with _ | r2
      · rw [getAvatar_fallback_throws env email size hro heq h2]
        exact ⟨rfl, by simp⟩
      · cases hok2 : r2.ok with
        | false =>
          rw [getAvatar_fallback_notOk env email size r2 hro heq h2 hok2]
          exact ⟨rfl, by simp⟩
        | true =>
          rw [getAvatar_fallback_ok env email size r2 hro heq h2 hok2,
            validate_reject r2 _ (hall r2 (Or.inr h2))]
          exact ⟨rfl, by simp⟩

/-- A success response declaring `text/html`, outside the allow-list. -/
def respHtml : Response :=
  { ok := true, contentType := some "text/html", body := [60, 104, 116, 109, 108] }

/-- An environment whose network always yields `respHtml`. -/
def envHtml : Env := { envBase with fetch := fun _ => some respHtml }

/-- Closed instance of the C6 theorem at `envHtml`. -/
theorem getAvatar_unsupported_type_witness :
    (getAvatar envHtml "jane@example.org" 32).1 = none ∧
      Event.blobRead ∉ (getAvatar envHtml "jane@example.org" 32).2 :=
  getAvatar_unsupported_type envHtml "jane@example.org" 32 (by
    intro r hr ct hct
    have hr' : some respHtml = some r := hr.elim (fun h => h) (fun h => h)
    cases Option.some.inj hr'
    cases Option.some.inj hct
    rfl)

/-- C7: the content-addressed identifier and the whole call are invariant
under case changes and surrounding whitespace of the input: two emails with
the same normalization yield the same hash, the same route, and the same
result and trace. -/
theorem hash_invariance (env : Env) (e1 e2 : String) (size : Nat)
    (h : normalizeEmail e1 = normalizeEmail e2) :
    env.sha256sum (normalizeEmail e1) = env.sha256sum (normalizeEmail e2) ∧
      routeOf env e1 size = routeOf env e2 size ∧
      getAvatar env e1 size = getAvatar env e2 size := by
  refine ⟨by rw [h], ?_, ?_⟩
  · unfold routeOf
    rw [h]
  · unfold getAvatar instanceOf
    rw [h]

/-- Closed instance of the C7 theorem: an email with capitals and padding
resolves exactly as its lowercased trimmed form. -/
theorem hash_invariance_witness :
    envBase.sha256sum (normalizeEmail "  Alice@Example.COM ") =
        envBase.sha256sum (normalizeEmail "alice@example.com") ∧
      routeOf envBase "  Alice@Example.COM " 80 = routeOf envBase "alice@example.com" 80 ∧
      getAvatar envBase "  Alice@Example.COM " 80 = getAvatar envBase "alice@example.com" 80 :=
  hash_invariance envBase "  Alice@Example.COM " "alice@example.com" 80 (by decide)

/-- C8: when both fetch attempts fail at the transport level (the fetch calls
throw), the call returns the absent result; the thrown errors are absorbed by
the surrounding catch blocks, never surfacing past `getAvatar`. -/
theorem getAvatar_both_fail (env : Env) (email : String) (size : Nat)
    (h1 : env.fetch (attemptUrl1 env email size) = none)
    (h2 : env.fetch (attemptUrl2 env email size) = none) :
    (getAvatar env email size).1 = none := by
  have hfail : respOk (env.fetch (attemptUrl1 env email size)) = false := by
    rw [h1]
    rfl
  by_cases heq : fallbackInstance env = instanceOf env email
  · rw [getAvatar_shortCircuit env email size hfail heq]
  · rw [getAvatar_fallback_throws env email size hfail heq h2]

/-- Closed instance of the C8 theorem at `envBase`, whose fetch always
throws. -/
theorem getAvatar_both_fail_witness :
    (getAvatar envBase "jane@example.org" 32).1 = none :=
  getAvatar_both_fail envBase "jane@example.org" 32 rfl rfl

theorem data_append (a b : String) : (a ++ b).data = a.data ++ b.data := rfl

/-- Splitting a list free of the separator yields the single segment. -/
theorem splitOnChar_not_mem (c : Char) (l : List Char) (h : c ∉ l) :
    splitOnChar c l = [l] := by
  induction l with
  | nil => rfl
  | cons x xs ih =>
    have hx : ¬ x = c := fun hxc => h (List.mem_cons.mpr (Or.inl hxc.symm))
    have hxs : c ∉ xs := fun hm => h (List.mem_cons.mpr (Or.inr hm))
    simp [splitOnChar, hx, ih hxs]

/-- Splitting a list that begins with a separator-free prefix followed by the
separator peels off that prefix as the first segment. -/
theorem splitOnChar_append (c : Char) (p rest : List Char) (hp : c ∉ p) :
    splitOnChar c (p ++ c :: rest) = p :: splitOnChar c rest := by
  induction p with
  | nil => simp [splitOnChar]
  | cons x xs ih =>
    have hx : ¬ x = c := fun hxc => hp (List.mem_cons.mpr (Or.inl hxc.symm))
    have hxs : c ∉ xs := fun hm => hp (List.mem_cons.mpr (Or.inr hm))
    simp [splitOnChar, hx, ih hxs]

/-- One `@`: the domain is the part after it. -/
theorem domainOf_single (p d : String) (hp : '@' ∉ p.data) (hd : '@' ∉ d.data) :
    domainOf (p ++ "@" ++ d) = some d := by
  unfold domainOf
  have hdata : (p ++ "@" ++ d).data = p.data ++ '@' :: d.data := by
    have h0 : (p ++ "@" ++ d).data = (p.data ++ ['@']) ++ d.data := rfl
    rw [h0, List.append_assoc]
    rfl
  rw [hdata, splitOnChar_append '@' p.data d.data hp, splitOnChar_not_mem '@' d.data hd]
  rfl

/-- Two `@`: the domain is the segment between the first and the second `@`,
not everything after the first. -/
theorem domainOf_multi (p d r : String) (hp : '@' ∉ p.data) (hd : '@' ∉ d.data) :
    domainOf (p ++ "@" ++ d ++ "@" ++ r) = some d := by
  unfold domainOf
  have hdata : (p ++ "@" ++ d ++ "@" ++ r).data =
      p.data ++ '@' :: (d.data ++ '@' :: r.data) := by
    have h0 : (p ++ "@" ++ d ++ "@" ++ r).data =
        (((p.data ++ ['@']) ++ d.data) ++ ['@']) ++ r.data := rfl
    rw [h0]
    simp [List.append_assoc]
  rw [hdata, splitOnChar_append '@' p.data (d.data ++ '@' :: r.data) hp,
    splitOnChar_append '@' d.data r.data hd]
  simp

/-- No `@`: the split has a single segment, so index 1 is absent. -/
theorem domainOf_none (s : String) (h : '@' ∉ s.data) : domainOf s = none := by
  unfold domainOf
  rw [splitOnChar_not_mem '@' s.data h]
  rfl

/-- Every call issues at least one fetch: the pipeline proceeds to the network
stage for any input address, usable domain or not. -/
theorem countFetches_pos (env : Env) (email : String) (size : Nat) :
    1 ≤ countFetches (getAvatar env email size).2 := by
  have hh := getAvatar_trace_head env email size
  rcases ht : (getAvatar env email size).2 with _ | ⟨e, t⟩
  · rw [ht] at hh
    simp at hh
  · rw [ht] at hh
    have he : e = Event.fetchReq (attemptUrl1 env email size) := by
      simpa using hh
    rw [he, countFetches_cons_fetch]
    omega

/-- A success response carrying a genuine PNG payload (exactly the 8-byte PNG
signature). -/
def respPngGood : Response :=
  { ok := true
    contentType := some "image/png"
    body := [137, 80, 78, 71, 13, 10, 26, 10] }

/-- An environment whose network always yields `respPngGood`. -/
def envPngGood : Env := { envBase with fetch := fun _ => some respPngGood }

/-- C9 counterexample, both failing clauses at concrete inputs: (a) for the
normalized address `a@b@c` the code takes the segment between the first and
second `@` — the domain is `b`, not everything after the first `@` (`b@c`);
(b) for the address `nodomain` with no `@` the call does not degrade to the
absent "no avatar" outcome: on a network serving a valid PNG it returns a
file. -/
theorem address_normalizer_counterexample :
    (domainOf (normalizeEmail "a@b@c") = some "b" ∧
      domainOf (normalizeEmail "a@b@c") ≠ some "b@c") ∧
      (getAvatar envPngGood "nodomain" 32).1 ≠ none := by decide

/-- C9 (amended): the address normalizer trims surrounding whitespace and
lowercases the whole address (shown on a representative input), and splits on
`@` taking the second segment as the domain: with a single `@` that is the
part after it, with multiple `@` it is the text between the first and second
`@`, with no `@` the domain is absent — and in every case the call proceeds
to the fetch stage rather than crashing, the outcome then depending on the
network response rather than being forced to the absent result. -/
theorem address_normalizer_spec (env : Env) (size : Nat) (p d r s : String)
    (hp : '@' ∉ p.data) (hd : '@' ∉ d.data) :
    normalizeEmail "  Alice@Example.COM " = "alice@example.com" ∧
      domainOf (p ++ "@" ++ d) = some d ∧
      domainOf (p ++ "@" ++ d ++ "@" ++ r) = some d ∧
      ('@' ∉ s.data → domainOf s = none) ∧
      1 ≤ countFetches (getAvatar env s size).2 :=
  ⟨by decide, domainOf_single p d hp hd, domainOf_multi p d r hp hd,
    fun hs => domainOf_none s hs, countFetches_pos env s size⟩

/-- Closed instance of the C9 amended theorem at concrete local part, domain
and tail. -/
theorem address_normalizer_spec_witness :
    normalizeEmail "  Alice@Example.COM " = "alice@example.com" ∧
      domainOf ("alice" ++ "@" ++ "example.org") = some "example.org" ∧
      domainOf ("alice" ++ "@" ++ "example.org" ++ "@" ++ "tail") = some "example.org" ∧
      ('@' ∉ "nodomain".data → domainOf "nodomain" = none) ∧
      1 ≤ countFetches (getAvatar envBase "nodomain" 32).2 :=
  address_normalizer_spec envBase 32 "alice" "example.org" "tail" "nodomain"
    (by decide) (by decide)

/-- A success response declaring the canonical `image/jpeg` over a genuine
JPEG payload. -/
def respJpegCanon : Response :=
  { ok := true, contentType := some "image/jpeg", body := [255, 216, 255, 217] }

/-- An environment whose network always yields `respJpegCanon`. -/
def envJpegCanon : Env := { envBase with fetch := fun _ => some respJpegCanon }

/-- C10: the supported-type lookup is an exact string match against exactly
the two keys `image/jpg` and `image/png`; the canonical `image/jpeg` or a
value carrying parameters misses the table, so a call whose responses declare
such a type returns `none` even when the payload is a genuine image. -/
theorem contentType_exact_match (env : Env) (email : String) (size : Nat)
    (hall : ∀ r : Response,
      (env.fetch (attemptUrl1 env email size) = some r ∨
        env.fetch (attemptUrl2 env email size) = some r) →
      r.contentType = some "image/jpeg" ∨
        r.contentType = some "image/png; charset=utf-8") :
    (∀ ct, (lookupContentType ct).isSome = true ↔
        (ct = "image/jpg" ∨ ct = "image/png")) ∧
      (getAvatar env email size).1 = none := by
  constructor
  · intro ct
    constructor
    · intro hsome
      rcases hfind : SUPPORTED_CONTENT_TYPES.find? (fun p => p.1 == ct) with _ | pr
      · exfalso
        unfold lookupContentType at hsome
        rw [hfind] at hsome
        simp at hsome
      · have hpr := List.find?_some hfind
        have hmem := List.mem_of_find?_eq_some hfind
        simp only [SUPPORTED_CONTENT_TYPES, List.mem_cons, List.not_mem_nil,
          or_false] at hmem
        rcases hmem with hl | hl
        · rw [hl] at hpr
          exact Or.inl (eq_of_beq hpr).symm
        · rw [hl] at hpr
          exact Or.inr (eq_of_beq hpr).symm
    · intro h
      rcases h with h | h <;> subst h <;> rfl
  · refine getAvatar_none_of_validate_none env email size ?_
    intro r hr hok
    have hn : validateResponse r (env.sha256sum (normalizeEmail email)) = (none, []) := by
      apply validate_reject
      intro ct hct
      rcases hall r hr with h | h
      · rw [hct] at h
        cases Option.some.inj h
        rfl
      · rw [hct] at h
        cases Option.some.inj h
        rfl
    rw [hn]

/-- Closed instance of the C10 theorem at `envJpegCanon`: a genuine JPEG served
under the canonical type is still rejected. -/
theorem contentType_exact_match_witness :
    (∀ ct, (lookupContentType ct).isSome = true ↔
        (ct = "image/jpg" ∨ ct = "image/png")) ∧
      (getAvatar envJpegCanon "jane@example.org" 32).1 = none :=
  contentType_exact_match envJpegCanon "jane@example.org" 32 (by
    intro r hr
    have hr' : some respJpegCanon = some r := hr.elim (fun h => h) (fun h => h)
    cases Option.some.inj hr'
    exact Or.inl rfl)

end Libravatar
